import Mathlib

/-!
# Verification of the `okta` package of the yak repository

Shallow embedding of `okta/okta.go`. Go's effectful ingredients (the HTTP
transport, JSON unmarshalling, the HTML tokenizer) are modelled as explicit
oracle values passed to the embedded functions: a `TransportOutcome` records
everything `http.Post` followed by the body read can observably do, and JSON
decoding is an arbitrary function into `Option OktaAuthFields` (Go's
`json.Unmarshal` leaves the target value unchanged when decoding fails,
which `applyUnmarshalAuth` mirrors). The fresh unmarshal target is always a
zero value except for its `YakStatusCode` field, so a whole-record oracle is
fully general for the other fields; `YakStatusCode` itself — untagged but
exported, hence matched by field name by `encoding/json` — is `Option`al in
the oracle's output, `none` meaning the body does not name it and the
pre-set value stays.
-/

set_option autoImplicit false

namespace Yak

/-- `okta.go:62` — `YAK_STATUS_OK = iota` (value 0). -/
def YAK_STATUS_OK : Nat := 0

/-- `okta.go:63` — `YAK_STATUS_UNAUTHORISED` (value 1). -/
def YAK_STATUS_UNAUTHORISED : Nat := 1

/-- `okta.go:64` — `YAK_STATUS_DATA_ERROR` (value 2). -/
def YAK_STATUS_DATA_ERROR : Nat := 2

/-- `okta.go:65` — `YAK_STATUS_NET_ERROR` (value 3). -/
def YAK_STATUS_NET_ERROR : Nat := 3

/-- `okta.go:66` — `YAK_STATUS_BAD_RESPONSE` (value 4). -/
def YAK_STATUS_BAD_RESPONSE : Nat := 4

/-- `okta.go:34-36` — `OktaLink`. -/
structure OktaLink where
  href : String := ""
  deriving DecidableEq, Repr

/-- `okta.go:38-40` — `AuthResponseFactorLinks`. -/
structure AuthResponseFactorLinks where
  verifyLink : OktaLink := {}
  deriving DecidableEq, Repr

/-- `okta.go:42-44` — `PushRequestResponseLinks`. -/
structure PushRequestResponseLinks where
  pollLink : OktaLink := {}
  deriving DecidableEq, Repr

/-- `okta.go:46-49` — `PushRequestResponse`. -/
structure PushRequestResponse where
  links : PushRequestResponseLinks := {}
  factorResult : String := ""
  deriving DecidableEq, Repr

/-- `okta.go:51-55` — `AuthResponseFactor`. -/
structure AuthResponseFactor where
  links : AuthResponseFactorLinks := {}
  factorType : String := ""
  provider : String := ""
  deriving DecidableEq, Repr

/-- `okta.go:57-59` — `AuthResponseEmbedded`. -/
structure AuthResponseEmbedded where
  factors : List AuthResponseFactor := []
  deriving DecidableEq, Repr

/-- `okta.go:69-76` — `OktaAuthResponse`. The field defaults are Go's zero
values, so `{ yakStatusCode := s }` is Go's `OktaAuthResponse{YakStatusCode: s}`. -/
structure OktaAuthResponse where
  stateToken : String := ""
  sessionToken : String := ""
  expiresAt : String := ""
  status : String := ""
  embedded : AuthResponseEmbedded := {}
  yakStatusCode : Nat := 0
  deriving DecidableEq, Repr

/-- The fields of `OktaAuthResponse` that `json.Unmarshal` can set. The
five json-tagged fields are matched by their tags; the untagged but
*exported* `YakStatusCode` field is also matched, by (case-insensitive)
field name, so a response body can set it. It is `Option`al here because a
body that does not name it leaves the pre-set value in place — and unlike
the other fields, whose prior value is the zero value at every unmarshal
site, the prior `YakStatusCode` carries meaning on entry. -/
structure OktaAuthFields where
  stateToken : String := ""
  sessionToken : String := ""
  expiresAt : String := ""
  status : String := ""
  embedded : AuthResponseEmbedded := {}
  yakStatusCode : Option Nat := none
  deriving DecidableEq, Repr

/-- `json.Unmarshal(body, &authResponse)` with its error ignored: on decode
failure the target is left unchanged; on success the tagged fields are
overwritten, and `YakStatusCode` is overwritten exactly when the body names
it (`encoding/json` matches the untagged exported field by name). -/
def applyUnmarshalAuth (d : Option OktaAuthFields) (r : OktaAuthResponse) : OktaAuthResponse :=
  match d with
  | none => r
  | some f => { r with
      stateToken := f.stateToken
      sessionToken := f.sessionToken
      expiresAt := f.expiresAt
      status := f.status
      embedded := f.embedded
      yakStatusCode := f.yakStatusCode.getD r.yakStatusCode }

/-- Everything `http.Post` followed by `ioutil.ReadAll(resp.Body)` can
observably do: a transport/connection error carrying an error message, or an
HTTP response with a numeric status code, a status line (Go's `resp.Status`),
and a body read that returns the bytes read so far plus an optional read
error (`ReadAll` returns partial bytes alongside its error). -/
inductive TransportOutcome where
  | connError (msg : String)
  | httpResponse (statusCode : Nat) (status : String) (bodyRead : String × Option String)
  deriving DecidableEq, Repr

/-- The `([]byte, int, error)` triple returned by `makeRequest`. -/
structure MakeRequestResult where
  body : String
  yakStatus : Nat
  error : Option String
  deriving DecidableEq, Repr

/-- `okta.go:235-255` — `makeRequest`. The target URL only selects which
server answers; the answer itself is the `TransportOutcome` oracle, so the
URL argument is dropped from the embedding. -/
def makeRequest : TransportOutcome → MakeRequestResult
  | .connError msg => ⟨"", YAK_STATUS_NET_ERROR, some msg⟩
  | .httpResponse statusCode status bodyRead =>
    if statusCode = 401 ∨ statusCode = 403 then
      ⟨"", YAK_STATUS_UNAUTHORISED, some ("Unauthorised (" ++ status ++ ")")⟩
    else if 300 ≤ statusCode then
      ⟨"", YAK_STATUS_NET_ERROR, some ("Network error (" ++ status ++ ")")⟩
    else
      match bodyRead.2 with
      | some e => ⟨bodyRead.1, YAK_STATUS_BAD_RESPONSE, some e⟩
      | none => ⟨bodyRead.1, YAK_STATUS_OK, none⟩

/-- `okta.go:78-104` — `Authenticate`. `json.Marshal(userData)` and
`url.Parse(oktaHref)` are oracles (their error branches are lines 81-83 and
87-89); the parse of the constant `/api/v1/authn` endpoint and the URL
resolution feed only the request URL, which the `TransportOutcome` oracle
abstracts. -/
def Authenticate (marshalResult : Except String String)
    (urlParseResult : Except String Unit)
    (outcome : TransportOutcome)
    (decodeAuth : String → Option OktaAuthFields) : OktaAuthResponse × Option String :=
  match marshalResult with
  | .error e => ({ yakStatusCode := YAK_STATUS_DATA_ERROR }, some e)
  | .ok _ =>
    match urlParseResult with
    | .error e => ({ yakStatusCode := YAK_STATUS_DATA_ERROR }, some e)
    | .ok _ =>
      let r := makeRequest outcome
      match r.error with
      | some e => ({ yakStatusCode := r.yakStatus }, some e)
      | none => (applyUnmarshalAuth (decodeAuth r.body) { yakStatusCode := YAK_STATUS_OK }, none)

/-- `okta.go:106-123` — `VerifyTotp`. -/
def VerifyTotp (marshalResult : Except String String)
    (outcome : TransportOutcome)
    (decodeAuth : String → Option OktaAuthFields) : OktaAuthResponse × Option String :=
  match marshalResult with
  | .error e => ({ yakStatusCode := YAK_STATUS_DATA_ERROR }, some e)
  | .ok _ =>
    let r := makeRequest outcome
    match r.error with
    | some e => ({ yakStatusCode := r.yakStatus }, some e)
    | none => (applyUnmarshalAuth (decodeAuth r.body) { yakStatusCode := YAK_STATUS_OK }, none)

/-- The `OktaAuthResponse` a poll iteration builds from the event it
consumed: `OktaAuthResponse{YakStatusCode: yakStatus}` (`okta.go:146`) with
the decoded fields applied by `json.Unmarshal` (`okta.go:157`). -/
def authFromEvent (decodeAuth : String → Option OktaAuthFields)
    (o : TransportOutcome) : OktaAuthResponse :=
  applyUnmarshalAuth (decodeAuth (makeRequest o).body)
    { yakStatusCode := (makeRequest o).yakStatus }

/-- The status string a poll iteration inspects (`okta.go:159`) for an
event whose `makeRequest` succeeded. -/
def pollStatus (decodeAuth : String → Option OktaAuthFields)
    (o : TransportOutcome) : String :=
  (authFromEvent decodeAuth o).status

/-- Result of the push-polling loop, instrumented with the number of
`makeRequest` calls performed by the loop and the total seconds slept.
`outcome = none` means the supplied behaviour list was exhausted with the
loop still running (the Go loop would keep polling). -/
structure PushLoopResult where
  outcome : Option (OktaAuthResponse × Option String)
  polls : Nat
  sleepSeconds : Nat
  deriving DecidableEq, Repr

/-- `okta.go:143-173` — the `for` loop of `VerifyPush`. Each iteration
consumes one `TransportOutcome` from the behaviour list; `errorsRemaining`
is the Go `int` counter (initially 6, decremented on every `makeRequest`
error, aborting when the decremented value is 0, and never reset). On an
error the iteration `continue`s, skipping both the status checks and the
sleep. -/
def verifyPushPollLoop (decodeAuth : String → Option OktaAuthFields) :
    List TransportOutcome → Int → PushLoopResult
  | [], _ => ⟨none, 0, 0⟩
  | o :: rest, errorsRemaining =>
    let r := makeRequest o
    let authResponse : OktaAuthResponse := { yakStatusCode := r.yakStatus }
    match r.error with
    | some e =>
      if errorsRemaining - 1 = 0 then
        ⟨some (authResponse, some e), 1, 0⟩
      else
        let k := verifyPushPollLoop decodeAuth rest (errorsRemaining - 1)
        ⟨k.outcome, k.polls + 1, k.sleepSeconds⟩
    | none =>
      let authResponse := authFromEvent decodeAuth o
      if authResponse.status ≠ "MFA_CHALLENGE" then
        if authResponse.status = "SUCCESS" then
          ⟨some (authResponse, none), 1, 0⟩
        else
          ⟨some ({ authResponse with yakStatusCode := YAK_STATUS_BAD_RESPONSE },
                 some ("Bad status from Okta API: " ++ authResponse.status)), 1, 0⟩
      else
        let k := verifyPushPollLoop decodeAuth rest errorsRemaining
        ⟨k.outcome, k.polls + 1, k.sleepSeconds + 5⟩

/-- `okta.go:125-174` — `VerifyPush`. The marshal of the push body is an
oracle; the initial `makeRequest` (line 132) initiates the push, its body is
decoded into a `PushRequestResponse` whose poll link only selects the poll
endpoint — the endpoint's behaviour is the `pollBehaviour` oracle list. -/
def VerifyPush (marshalResult : Except String String)
    (initOutcome : TransportOutcome)
    (decodePush : String → Option PushRequestResponse)
    (decodeAuth : String → Option OktaAuthFields)
    (pollBehaviour : List TransportOutcome) : PushLoopResult :=
  match marshalResult with
  | .error e => ⟨some ({ yakStatusCode := YAK_STATUS_DATA_ERROR }, some e), 0, 0⟩
  | .ok _ =>
    let r := makeRequest initOutcome
    match r.error with
    | some e => ⟨some ({ yakStatusCode := r.yakStatus }, some e), 0, 0⟩
    | none =>
      let _pushRequestResponse := (decodePush r.body).getD {}
      verifyPushPollLoop decodeAuth pollBehaviour 6

/-! ## HTML extraction (`extractSamlPayload`) and base64 decoding -/

/-- Go `html.Attribute` restricted to the fields `okta.go` reads. -/
structure HtmlAttribute where
  key : String
  val : String
  deriving DecidableEq, Repr

/-- Go `html.TokenType`. -/
inductive HtmlTokenType where
  | errorToken
  | textToken
  | startTagToken
  | endTagToken
  | selfClosingTagToken
  | commentToken
  | doctypeToken
  deriving DecidableEq, Repr

/-- Go `html.Token` restricted to the fields `okta.go` reads. -/
structure HtmlToken where
  ttype : HtmlTokenType
  data : String
  attr : List HtmlAttribute
  deriving DecidableEq, Repr

/-- The attribute scan of `okta.go:274-282`: `inputName`/`inputValue` start
as the zero string and are overwritten on every matching key, so the last
occurrence wins. -/
def lastAttrVal (key : String) (attrs : List HtmlAttribute) : String :=
  attrs.foldl (fun acc a => if a.key = key then a.val else acc) ""

/-- `okta.go:257-292` — `extractSamlPayload`, over the token stream the Go
tokenizer produces for the document. A real tokenizer ends every finite
document's stream with an `errorToken` (EOF); an exhausted list is given the
same meaning. -/
def extractSamlPayload : List HtmlToken → Except String String
  | [] => .error "No SAML payload found in response from Okta"
  | t :: rest =>
    if t.ttype = .errorToken then
      .error "No SAML payload found in response from Okta"
    else if (t.ttype = .selfClosingTagToken ∨ t.ttype = .startTagToken) ∧ t.data = "input" then
      if lastAttrVal "name" t.attr = "SAMLResponse" then
        .ok (lastAttrVal "value" t.attr)
      else
        extractSamlPayload rest
    else
      extractSamlPayload rest

/-- Value of one character of the base64 standard alphabet. -/
def b64Val (c : Char) : Option Nat :=
  if 'A' ≤ c ∧ c ≤ 'Z' then some (c.toNat - 65)
  else if 'a' ≤ c ∧ c ≤ 'z' then some (c.toNat - 71)
  else if '0' ≤ c ∧ c ≤ '9' then some (c.toNat + 4)
  else if c = '+' then some 62
  else if c = '/' then some 63
  else none

/-- `base64.StdEncoding.DecodeString`: standard alphabet, mandatory `=`
padding, input length a multiple of 4; yields the decoded byte values or
fails (Go's `CorruptInputError`). Go's default (non-`Strict`) mode ignores
nonzero trailing padding bits, as does this model. -/
def base64StdDecode : List Char → Option (List Nat)
  | [] => some []
  | c1 :: c2 :: c3 :: c4 :: rest =>
    match b64Val c1, b64Val c2 with
    | some v1, some v2 =>
      if c3 = '=' then
        if c4 = '=' ∧ rest = [] then some [v1 * 4 + v2 / 16] else none
      else
        match b64Val c3 with
        | some v3 =>
          if c4 = '=' then
            if rest = [] then some [v1 * 4 + v2 / 16, v2 % 16 * 16 + v3 / 4] else none
          else
            match b64Val c4 with
            | some v4 =>
              (base64StdDecode rest).map
                (fun tail => (v1 * 4 + v2 / 16) :: (v2 % 16 * 16 + v3 / 4) :: (v3 % 4 * 64 + v4) :: tail)
            | none => none
        | none => none
    | _, _ => none
  | _ => none

/-! ## URL construction (`AwsSamlLogin`) and the query-string codec

Go strings are byte sequences; URL components are modelled as lists of byte
values `< 256`. -/

/-- A Go string viewed as its bytes. -/
abbrev GoStr := List Nat

/-- Bytes of an ASCII Lean string. -/
def strBytes (s : String) : GoStr :=
  s.data.map Char.toNat

/-- Bytes `url.QueryEscape` leaves unescaped: ASCII alphanumerics and
`-._~`. -/
def isUnreservedQueryByte (b : Nat) : Bool :=
  (65 ≤ b && b ≤ 90) || (97 ≤ b && b ≤ 122) || (48 ≤ b && b ≤ 57) ||
    b = 45 || b = 46 || b = 95 || b = 126

/-- Uppercase hexadecimal digit for a value `< 16`. -/
def upperHexDigit (n : Nat) : Nat :=
  if n < 10 then 48 + n else 55 + n

/-- `url.QueryEscape` on one byte: unreserved bytes pass through, space
becomes `+`, everything else becomes `%XX`. -/
def queryEscapeByte (b : Nat) : GoStr :=
  if isUnreservedQueryByte b then [b]
  else if b = 32 then [43]
  else [37, upperHexDigit (b / 16), upperHexDigit (b % 16)]

/-- `url.QueryEscape` on a byte string. -/
def queryEscape : GoStr → GoStr
  | [] => []
  | b :: rest => queryEscapeByte b ++ queryEscape rest

/-- Is `b` an ASCII hexadecimal digit (either case), as Go's `ishex`. -/
def isHexDigitByte (b : Nat) : Bool :=
  (48 ≤ b && b ≤ 57) || (65 ≤ b && b ≤ 70) || (97 ≤ b && b ≤ 102)

/-- Value of an ASCII hexadecimal digit. -/
def hexDigitVal (b : Nat) : Nat :=
  if b ≤ 57 then b - 48 else if b ≤ 70 then b - 55 else b - 87

/-- `url.QueryUnescape`: `+` becomes space, `%XX` becomes the byte `XX`
(failing on a malformed escape), everything else passes through. -/
def queryUnescape : GoStr → Option GoStr
  | [] => some []
  | b :: rest =>
    if b = 43 then (queryUnescape rest).map (fun t => 32 :: t)
    else if b = 37 then
      match rest with
      | h :: l :: rest2 =>
        if isHexDigitByte h && isHexDigitByte l then
          (queryUnescape rest2).map (fun t => (hexDigitVal h * 16 + hexDigitVal l) :: t)
        else none
      | _ => none
    else (queryUnescape rest).map (fun t => b :: t)

/-- Split a query string at `&` (byte 38). -/
def splitOnAmpersand : GoStr → List GoStr
  | [] => [[]]
  | b :: rest =>
    if b = 38 then [] :: splitOnAmpersand rest
    else
      match splitOnAmpersand rest with
      | [] => [[b]]
      | g :: gs => (b :: g) :: gs

/-- Split one `key=value` segment at the first `=` (byte 61); a segment
without `=` is a key with an empty value. -/
def splitFirstEq : GoStr → GoStr × GoStr
  | [] => ([], [])
  | b :: rest =>
    if b = 61 then ([], rest)
    else
      let kv := splitFirstEq rest
      (b :: kv.1, kv.2)

/-- Unescape each `key=value` segment, failing if any escape is malformed. -/
def parseSegments : List GoStr → Option (List (GoStr × GoStr))
  | [] => some []
  | seg :: rest =>
    match queryUnescape (splitFirstEq seg).1, queryUnescape (splitFirstEq seg).2,
        parseSegments rest with
    | some k, some v, some acc => some ((k, v) :: acc)
    | _, _, _ => none

/-- `url.ParseQuery` (as the spec's "query parameters of the URL"): split at
`&`, skip empty segments, split each at the first `=`, unescape both
sides. -/
def goParseQuery (s : GoStr) : Option (List (GoStr × GoStr)) :=
  parseSegments ((splitOnAmpersand s).filter (fun seg => !seg.isEmpty))

/-- Go `url.URL` restricted to the components `okta.go` manipulates. -/
structure GoUrl where
  scheme : GoStr := []
  host : GoStr := []
  path : GoStr := []
  rawQuery : GoStr := []
  deriving DecidableEq, Repr

/-- The directory prefix of a path: everything up to and including the last
`/` (byte 47), used when merging a relative reference. -/
def dirOfPath (p : GoStr) : GoStr :=
  ((p.reverse.dropWhile (fun b => b ≠ 47))).reverse

/-- `url.URL.ResolveReference` (RFC 3986 §5.3, dot-segment removal and
user/fragment components omitted): an absolute reference wins outright, a
host-relative one takes the base scheme, an absolute path replaces the base
path, and a relative path is merged onto the base path's directory. -/
def resolveReference (base ref : GoUrl) : GoUrl :=
  if ref.scheme ≠ [] then ref
  else if ref.host ≠ [] then { ref with scheme := base.scheme }
  else if ref.path = [] then
    { base with rawQuery := if ref.rawQuery = [] then base.rawQuery else ref.rawQuery }
  else if ref.path.head? = some 47 then
    { scheme := base.scheme, host := base.host, path := ref.path, rawQuery := ref.rawQuery }
  else
    { scheme := base.scheme, host := base.host, path := dirOfPath base.path ++ ref.path,
      rawQuery := ref.rawQuery }

/-- `url.Values.Encode()` for the single-parameter map built at
`okta.go:191-192`: `escape(key) ++ "=" ++ escape(value)`. -/
def urlValuesEncodeSingle (key value : GoStr) : GoStr :=
  queryEscape key ++ 61 :: queryEscape value

/-- `okta.go:176-194` — the URL `AwsSamlLogin` performs its GET against:
the SAML path resolved against the base address, its query overwritten with
the encoded single-parameter `onetimetoken` map. -/
def awsSamlLoginUrl (oktaUrl samlEndpoint : GoUrl) (sessionToken : GoStr) : GoUrl :=
  { resolveReference oktaUrl samlEndpoint with
    rawQuery := urlValuesEncodeSingle (strBytes "onetimetoken") sessionToken }

/-- Everything `client.Get` followed by `ioutil.ReadAll` can observably do.
The body is given already tokenized: the tokenizer itself is the external
`golang.org/x/net/html` package. -/
inductive GetOutcome where
  | connError (msg : String)
  | httpResponse (statusCode : Nat) (status : String) (bodyRead : Except String (List HtmlToken))
  deriving Repr

/-- `okta.go:176-233` — `AwsSamlLogin`. The two URL parses are oracles
(lines 177-187); `cookiejar.New(nil)` never fails, so its error branch is
dead; the GET against `awsSamlLoginUrl` is the `GetOutcome` oracle. The
result is the decoded SAML payload (Go's `string(saml)`, i.e. the raw byte
values) or the first error encountered. -/
def AwsSamlLogin (oktaUrlResult samlUrlResult : Except String GoUrl)
    (sessionToken : GoStr)
    (getOutcome : GetOutcome) : Except String (List Nat) :=
  match oktaUrlResult with
  | .error e => .error e
  | .ok oktaUrl =>
    match samlUrlResult with
    | .error e => .error e
    | .ok samlEndpoint =>
      let _samlUrl := awsSamlLoginUrl oktaUrl samlEndpoint sessionToken
      match getOutcome with
      | .connError msg => .error msg
      | .httpResponse statusCode status bodyRead =>
        if 300 ≤ statusCode then
          .error ("Could not get SAML payload" ++ status ++ ")")
        else
          match bodyRead with
          | .error e => .error e
          | .ok tokens =>
            match extractSamlPayload tokens with
            | .error e => .error e
            | .ok data =>
              match base64StdDecode data.data with
              | none => .error "illegal base64 data"
              | some saml => .ok saml

/-- `okta.go:294-301` — `TotpFactorName`. -/
def TotpFactorName (key : String) : String :=
  if key = "GOOGLE" then "Google Authenticator" else key

/-! ## Concrete fixtures used by witnesses and counterexamples -/

/-- A poll attempt that fails at the transport level. -/
def evFail : TransportOutcome :=
  .connError "connection refused"

/-- A 200 poll response whose body `testDecode`s to status `MFA_CHALLENGE`. -/
def evChallenge : TransportOutcome :=
  .httpResponse 200 "200 OK" ("CHAL", none)

/-- A 200 poll response whose body `testDecode`s to status `SUCCESS`. -/
def evSuccess : TransportOutcome :=
  .httpResponse 200 "200 OK" ("SUCC", none)

/-- A 200 poll response whose body `testDecode`s to status `REJECTED`. -/
def evRejected : TransportOutcome :=
  .httpResponse 200 "200 OK" ("REJ", none)

/-- A poll attempt answered with HTTP 401. -/
def evUnauthorised : TransportOutcome :=
  .httpResponse 401 "401 Unauthorized" ("", none)

/-- Decode oracle for the fixture bodies. -/
def testDecode : String → Option OktaAuthFields
  | "CHAL" => some { stateToken := "st", status := "MFA_CHALLENGE" }
  | "SUCC" => some { sessionToken := "tok", status := "SUCCESS" }
  | "REJ" => some { status := "REJECTED" }
  | _ => none

/-- Decode oracle for a 2xx body such as `{"YakStatusCode":3}` that names
the untagged exported `YakStatusCode` field, which `encoding/json` matches
by field name. -/
def testDecodeYsc : String → Option OktaAuthFields
  | "YSC" => some { status := "SUCCESS", yakStatusCode := some YAK_STATUS_NET_ERROR }
  | _ => none

/-! ## Helper lemmas -/

theorem applyUnmarshalAuth_yakStatusCode (d : Option OktaAuthFields) (r : OktaAuthResponse)
    (h : ∀ f, d = some f → f.yakStatusCode = none) :
    (applyUnmarshalAuth d r).yakStatusCode = r.yakStatusCode := by
  cases d with
  | none => rfl
  | some f =>
    have hf := h f rfl
    simp [applyUnmarshalAuth, hf]

theorem authFromEvent_yakStatusCode (d : String → Option OktaAuthFields) (o : TransportOutcome)
    (hd : ∀ f, d (makeRequest o).body = some f → f.yakStatusCode = none) :
    (authFromEvent d o).yakStatusCode = (makeRequest o).yakStatus := by
  simp only [authFromEvent]
  rw [applyUnmarshalAuth_yakStatusCode _ _ hd]

/-- None of `testDecode`'s outputs names the `YakStatusCode` field. -/
theorem testDecode_no_ysc : ∀ b f, testDecode b = some f → f.yakStatusCode = none := by
  intro b f h
  unfold testDecode at h
  split at h <;> cases h <;> rfl

theorem makeRequest_status_ok_iff (o : TransportOutcome) :
    (makeRequest o).yakStatus = YAK_STATUS_OK ↔ (makeRequest o).error = none := by
  cases o with
  | connError msg =>
    simp [makeRequest, YAK_STATUS_NET_ERROR, YAK_STATUS_OK]
  | httpResponse code st br =>
    obtain ⟨bb, re⟩ := br
    cases re <;> simp only [makeRequest] <;> split_ifs <;>
      simp [YAK_STATUS_OK, YAK_STATUS_UNAUTHORISED, YAK_STATUS_NET_ERROR, YAK_STATUS_BAD_RESPONSE]

theorem loop_cons_err (d : String → Option OktaAuthFields) (o : TransportOutcome)
    (rest : List TransportOutcome) (c : Int) (e : String)
    (herr : (makeRequest o).error = some e) :
    verifyPushPollLoop d (o :: rest) c =
      if c - 1 = 0 then
        ⟨some ({ yakStatusCode := (makeRequest o).yakStatus }, some e), 1, 0⟩
      else
        ⟨(verifyPushPollLoop d rest (c - 1)).outcome,
         (verifyPushPollLoop d rest (c - 1)).polls + 1,
         (verifyPushPollLoop d rest (c - 1)).sleepSeconds⟩ := by
  simp only [verifyPushPollLoop, herr]

theorem loop_cons_challenge (d : String → Option OktaAuthFields) (o : TransportOutcome)
    (rest : List TransportOutcome) (c : Int)
    (herr : (makeRequest o).error = none)
    (hst : pollStatus d o = "MFA_CHALLENGE") :
    verifyPushPollLoop d (o :: rest) c =
      ⟨(verifyPushPollLoop d rest c).outcome,
       (verifyPushPollLoop d rest c).polls + 1,
       (verifyPushPollLoop d rest c).sleepSeconds + 5⟩ := by
  simp only [pollStatus] at hst
  simp only [verifyPushPollLoop, herr, hst]
  simp

theorem loop_cons_success (d : String → Option OktaAuthFields) (o : TransportOutcome)
    (rest : List TransportOutcome) (c : Int)
    (herr : (makeRequest o).error = none)
    (hst : pollStatus d o = "SUCCESS") :
    verifyPushPollLoop d (o :: rest) c = ⟨some (authFromEvent d o, none), 1, 0⟩ := by
  simp only [pollStatus] at hst
  simp only [verifyPushPollLoop, herr, hst]
  simp

theorem loop_cons_badstatus (d : String → Option OktaAuthFields) (o : TransportOutcome)
    (rest : List TransportOutcome) (c : Int)
    (herr : (makeRequest o).error = none)
    (h1 : pollStatus d o ≠ "MFA_CHALLENGE") (h2 : pollStatus d o ≠ "SUCCESS") :
    verifyPushPollLoop d (o :: rest) c =
      ⟨some ({ authFromEvent d o with yakStatusCode := YAK_STATUS_BAD_RESPONSE },
             some ("Bad status from Okta API: " ++ pollStatus d o)), 1, 0⟩ := by
  simp only [pollStatus] at h1 h2 ⊢
  simp only [verifyPushPollLoop, herr]
  simp [h1, h2]

theorem loop_challenge_run (d : String → Option OktaAuthFields)
    (chal rest : List TransportOutcome) (c : Int)
    (h : ∀ o ∈ chal, (makeRequest o).error = none ∧ pollStatus d o = "MFA_CHALLENGE") :
    verifyPushPollLoop d (chal ++ rest) c =
      ⟨(verifyPushPollLoop d rest c).outcome,
       (verifyPushPollLoop d rest c).polls + chal.length,
       (verifyPushPollLoop d rest c).sleepSeconds + 5 * chal.length⟩ := by
  induction chal with
  | nil => simp
  | cons o os ih =>
    have ho := h o (by simp)
    rw [List.cons_append, loop_cons_challenge d o (os ++ rest) c ho.1 ho.2,
        ih (fun u hu => h u (by simp [hu]))]
    simp only [PushLoopResult.mk.injEq, List.length_cons]
    refine ⟨trivial, by omega, by omega⟩

theorem loop_fail_run (d : String → Option OktaAuthFields)
    (fails rest : List TransportOutcome) (c : Int)
    (hf : ∀ o ∈ fails, (makeRequest o).error ≠ none)
    (hc : (fails.length : Int) < c) :
    verifyPushPollLoop d (fails ++ rest) c =
      ⟨(verifyPushPollLoop d rest (c - fails.length)).outcome,
       (verifyPushPollLoop d rest (c - fails.length)).polls + fails.length,
       (verifyPushPollLoop d rest (c - fails.length)).sleepSeconds⟩ := by
  induction fails generalizing c with
  | nil => simp
  | cons o os ih =>
    obtain ⟨e, he⟩ := Option.ne_none_iff_exists'.mp (hf o (by simp))
    simp only [List.length_cons] at hc ⊢
    push_cast at hc
    rw [List.cons_append, loop_cons_err d o (os ++ rest) c e he]
    rw [if_neg (by omega)]
    rw [ih (c - 1) (fun u hu => hf u (List.mem_cons_of_mem o hu)) (by omega)]
    have hcc : c - 1 - (os.length : Int) = c - ((os.length + 1 : Nat) : Int) := by
      push_cast
      ring
    rw [hcc]
    simp only [PushLoopResult.mk.injEq]
    refine ⟨trivial, by omega, trivial⟩

theorem loop_err_nonok (d : String → Option OktaAuthFields)
    (pb : List TransportOutcome) (c : Int) :
    ∀ resp err, (verifyPushPollLoop d pb c).outcome = some (resp, err) → err ≠ none →
      resp.yakStatusCode ≠ YAK_STATUS_OK := by
  induction pb generalizing c with
  | nil =>
    intro resp err h
    simp [verifyPushPollLoop] at h
  | cons o os ih =>
    intro resp err h hne
    rcases he : (makeRequest o).error with _ | e
    · by_cases hch : pollStatus d o = "MFA_CHALLENGE"
      · rw [loop_cons_challenge d o os c he hch] at h
        exact ih c resp err h hne
      · by_cases hsu : pollStatus d o = "SUCCESS"
        · rw [loop_cons_success d o os c he hsu] at h
          simp only [Option.some.injEq, Prod.mk.injEq] at h
          exact absurd h.2.symm hne
        · rw [loop_cons_badstatus d o os c he hch hsu] at h
          simp only [Option.some.injEq, Prod.mk.injEq] at h
          rw [← h.1]
          simp [YAK_STATUS_BAD_RESPONSE, YAK_STATUS_OK]
    · rw [loop_cons_err d o os c e he] at h
      by_cases hc0 : c - 1 = 0
      · rw [if_pos hc0] at h
        simp only [Option.some.injEq, Prod.mk.injEq] at h
        rw [← h.1]
        simp only [ne_eq, makeRequest_status_ok_iff, he]
        simp
      · rw [if_neg hc0] at h
        exact ih (c - 1) resp err h hne

theorem loop_status_iff (d : String → Option OktaAuthFields)
    (hd : ∀ b f, d b = some f → f.yakStatusCode = none)
    (pb : List TransportOutcome) (c : Int) :
    ∀ resp err, (verifyPushPollLoop d pb c).outcome = some (resp, err) →
      (resp.yakStatusCode = YAK_STATUS_OK ↔ err = none) := by
  induction pb generalizing c with
  | nil =>
    intro resp err h
    simp [verifyPushPollLoop] at h
  | cons o os ih =>
    intro resp err h
    rcases he : (makeRequest o).error with _ | e
    · by_cases hch : pollStatus d o = "MFA_CHALLENGE"
      · rw [loop_cons_challenge d o os c he hch] at h
        exact ih c resp err h
      · by_cases hsu : pollStatus d o = "SUCCESS"
        · rw [loop_cons_success d o os c he hsu] at h
          simp only [Option.some.injEq, Prod.mk.injEq] at h
          rw [← h.1, ← h.2, authFromEvent_yakStatusCode d o (fun f hf => hd _ f hf)]
          simp [(makeRequest_status_ok_iff o).mpr he]
        · rw [loop_cons_badstatus d o os c he hch hsu] at h
          simp only [Option.some.injEq, Prod.mk.injEq] at h
          rw [← h.1, ← h.2]
          simp [YAK_STATUS_BAD_RESPONSE, YAK_STATUS_OK]
    · rw [loop_cons_err d o os c e he] at h
      by_cases hc0 : c - 1 = 0
      · rw [if_pos hc0] at h
        simp only [Option.some.injEq, Prod.mk.injEq] at h
        rw [← h.1, ← h.2]
        have hne : (makeRequest o).yakStatus ≠ YAK_STATUS_OK := by
          simp only [ne_eq, makeRequest_status_ok_iff, he]
          simp
        simp [hne]
      · rw [if_neg hc0] at h
        exact ih (c - 1) resp err h

/-! ## Claim theorems -/

/-- **C1** (amended): during push polling, transport-level poll failures are
tolerated up to 6 *cumulative* failures over the whole loop: each failed
poll decrements a counter that successful poll responses pass through
unchanged (no reset), and when the decremented counter reaches zero polling
aborts with a network-failure result. A poll endpoint failing 6 times in a
row aborts after exactly 6 poll attempts (no 7th, whatever `rest` would
answer); 5 failures followed by a `SUCCESS` response returns success on the
6th poll; and an `MFA_CHALLENGE` poll response continues with the counter
unchanged rather than restored. -/
theorem c1_poll_failures_cumulative
    (d : String → Option OktaAuthFields)
    (fs : List TransportOutcome) (fmsg : String) (s ch : TransportOutcome)
    (rest rest2 rest3 : List TransportOutcome) (cnt : Int)
    (hf : ∀ o ∈ fs, ∃ m, o = TransportOutcome.connError m)
    (hn : fs.length = 5)
    (hs : (makeRequest s).error = none) (hss : pollStatus d s = "SUCCESS")
    (hch1 : (makeRequest ch).error = none) (hch2 : pollStatus d ch = "MFA_CHALLENGE") :
    verifyPushPollLoop d (fs ++ TransportOutcome.connError fmsg :: rest) 6 =
      ⟨some ({ yakStatusCode := YAK_STATUS_NET_ERROR }, some fmsg), 6, 0⟩ ∧
    verifyPushPollLoop d (fs ++ s :: rest2) 6 =
      ⟨some (authFromEvent d s, none), 6, 0⟩ ∧
    verifyPushPollLoop d (ch :: rest3) cnt =
      ⟨(verifyPushPollLoop d rest3 cnt).outcome,
       (verifyPushPollLoop d rest3 cnt).polls + 1,
       (verifyPushPollLoop d rest3 cnt).sleepSeconds + 5⟩ := by
  have hfe : ∀ o ∈ fs, (makeRequest o).error ≠ none := by
    intro o ho
    obtain ⟨m, rfl⟩ := hf o ho
    simp [makeRequest]
  have h6 : ((fs.length : Int)) < 6 := by rw [hn]; norm_num
  refine ⟨?_, ?_, loop_cons_challenge d ch rest3 cnt hch1 hch2⟩
  · rw [loop_fail_run d fs (TransportOutcome.connError fmsg :: rest) 6 hfe h6,
      loop_cons_err d (TransportOutcome.connError fmsg) rest (6 - (fs.length : Int)) fmsg rfl,
      hn]
    norm_num
    rfl
  · rw [loop_fail_run d fs (s :: rest2) 6 hfe h6,
      loop_cons_success d s rest2 (6 - (fs.length : Int)) hs hss, hn]

/-- **C1** witness. -/
theorem c1_poll_failures_cumulative_witness :
    verifyPushPollLoop testDecode
        (List.replicate 5 evFail ++ TransportOutcome.connError "connection refused" :: []) 6 =
      ⟨some ({ yakStatusCode := YAK_STATUS_NET_ERROR }, some "connection refused"), 6, 0⟩ ∧
    verifyPushPollLoop testDecode (List.replicate 5 evFail ++ evSuccess :: []) 6 =
      ⟨some (authFromEvent testDecode evSuccess, none), 6, 0⟩ ∧
    verifyPushPollLoop testDecode (evChallenge :: []) 6 =
      ⟨(verifyPushPollLoop testDecode [] 6).outcome,
       (verifyPushPollLoop testDecode [] 6).polls + 1,
       (verifyPushPollLoop testDecode [] 6).sleepSeconds + 5⟩ :=
  c1_poll_failures_cumulative testDecode (List.replicate 5 evFail) "connection refused"
    evSuccess evChallenge [] [] [] 6
    (fun o ho => ⟨"connection refused", List.eq_of_mem_replicate ho⟩)
    (by decide) (by decide) (by decide) (by decide) (by decide)

/-- **C1** counterexample to the claim as stated: a successful poll response
does NOT restore the failure tolerance. After one failure and one successful
`MFA_CHALLENGE` response, only 5 further consecutive failures precede a
`SUCCESS` response — under the claim's "consecutive" semantics this run must
return success, but the code aborts on the 6th cumulative failure with a
network-failure result and never reaches the `SUCCESS` answer. The same
5-failures-then-`SUCCESS` tail run on its own does return success. -/
theorem c1_counterexample_no_reset :
    verifyPushPollLoop testDecode
        ([evFail, evChallenge] ++ (List.replicate 5 evFail ++ [evSuccess])) 6 =
      ⟨some ({ yakStatusCode := YAK_STATUS_NET_ERROR }, some "connection refused"), 7, 5⟩ ∧
    verifyPushPollLoop testDecode (List.replicate 5 evFail ++ [evSuccess]) 6 =
      ⟨some (authFromEvent testDecode evSuccess, none), 6, 0⟩ := by
  constructor
  · rfl
  · rfl

/-- **C2**: a poll endpoint answering `MFA_CHALLENGE` exactly `n` times and
then `SUCCESS`, with no transport failures, makes `VerifyPush` poll exactly
`n + 1` times, sleep 5 seconds after each `MFA_CHALLENGE` response, and
return the final decoded `OktaAuthResponse` with no error. -/
theorem c2_push_polls_n_plus_one
    (mb : String) (initO : TransportOutcome) (dp : String → Option PushRequestResponse)
    (d : String → Option OktaAuthFields) (n : Nat)
    (chal : List TransportOutcome) (s : TransportOutcome)
    (hinit : (makeRequest initO).error = none)
    (hn : chal.length = n)
    (hc : ∀ o ∈ chal, (makeRequest o).error = none ∧ pollStatus d o = "MFA_CHALLENGE")
    (hs : (makeRequest s).error = none) (hss : pollStatus d s = "SUCCESS") :
    VerifyPush (.ok mb) initO dp d (chal ++ [s]) =
      ⟨some (authFromEvent d s, none), n + 1, 5 * n⟩ := by
  subst hn
  simp only [VerifyPush, hinit]
  rw [loop_challenge_run d chal [s] 6 hc, loop_cons_success d s [] 6 hs hss]
  simp only [PushLoopResult.mk.injEq]
  refine ⟨trivial, by omega, by omega⟩

/-- **C2** witness. -/
theorem c2_push_polls_n_plus_one_witness :
    VerifyPush (.ok "{}") evChallenge (fun _ => none) testDecode
        (List.replicate 3 evChallenge ++ [evSuccess]) =
      ⟨some (authFromEvent testDecode evSuccess, none), 3 + 1, 5 * 3⟩ :=
  c2_push_polls_n_plus_one "{}" evChallenge (fun _ => none) testDecode 3
    (List.replicate 3 evChallenge) evSuccess (by decide) (by decide)
    (by
      intro o ho
      rw [List.eq_of_mem_replicate ho]
      exact ⟨by decide, by decide⟩)
    (by decide) (by decide)

/-- **C3**: a poll response whose status is neither `MFA_CHALLENGE` nor
`SUCCESS` terminates the loop on the first status check — exactly one poll,
no retries, whatever `rest` would answer — with a bad-response failure whose
error message carries the literal status string. -/
theorem c3_unexpected_status_fails_first_check
    (mb : String) (initO : TransportOutcome) (dp : String → Option PushRequestResponse)
    (d : String → Option OktaAuthFields) (o : TransportOutcome) (rest : List TransportOutcome)
    (hinit : (makeRequest initO).error = none)
    (herr : (makeRequest o).error = none)
    (h1 : pollStatus d o ≠ "MFA_CHALLENGE") (h2 : pollStatus d o ≠ "SUCCESS") :
    VerifyPush (.ok mb) initO dp d (o :: rest) =
      ⟨some ({ authFromEvent d o with yakStatusCode := YAK_STATUS_BAD_RESPONSE },
             some ("Bad status from Okta API: " ++ pollStatus d o)), 1, 0⟩ := by
  simp only [VerifyPush, hinit]
  exact loop_cons_badstatus d o rest 6 herr h1 h2

/-- **C3** witness: a poll endpoint that answers `REJECTED` fails on the
first status check. -/
theorem c3_unexpected_status_fails_first_check_witness :
    VerifyPush (.ok "{}") evChallenge (fun _ => none) testDecode (evRejected :: [evRejected]) =
      ⟨some ({ authFromEvent testDecode evRejected with yakStatusCode := YAK_STATUS_BAD_RESPONSE },
             some ("Bad status from Okta API: " ++ pollStatus testDecode evRejected)), 1, 0⟩ :=
  c3_unexpected_status_fails_first_check "{}" evChallenge (fun _ => none) testDecode
    evRejected [evRejected] (by decide) (by decide) (by decide) (by decide)

/-- **C4** (amended): outside the push-poll loop an unauthorized outcome
(HTTP 401/403) is surfaced immediately and never retried (`Authenticate` and
`VerifyTotp` perform their single request and return the unauthorized
result); *inside* the push-poll loop, however, a poll response classified as
unauthorized does not terminate polling: like any `makeRequest` error it
decrements the shared failure counter and polling continues while the
counter stays positive (aborting only when it reaches zero). -/
theorem c4_unauthorized_retry_scope
    (mr : String) (d : String → Option OktaAuthFields)
    (code : Nat) (st : String) (br : String × Option String)
    (rest : List TransportOutcome) (c : Int)
    (hcode : code = 401 ∨ code = 403) :
    Authenticate (.ok mr) (.ok ()) (.httpResponse code st br) d =
      ({ yakStatusCode := YAK_STATUS_UNAUTHORISED }, some ("Unauthorised (" ++ st ++ ")")) ∧
    VerifyTotp (.ok mr) (.httpResponse code st br) d =
      ({ yakStatusCode := YAK_STATUS_UNAUTHORISED }, some ("Unauthorised (" ++ st ++ ")")) ∧
    verifyPushPollLoop d (.httpResponse code st br :: rest) c =
      (if c - 1 = 0 then
        ⟨some ({ yakStatusCode := YAK_STATUS_UNAUTHORISED },
               some ("Unauthorised (" ++ st ++ ")")), 1, 0⟩
      else
        ⟨(verifyPushPollLoop d rest (c - 1)).outcome,
         (verifyPushPollLoop d rest (c - 1)).polls + 1,
         (verifyPushPollLoop d rest (c - 1)).sleepSeconds⟩) := by
  have hmk : makeRequest (.httpResponse code st br) =
      ⟨"", YAK_STATUS_UNAUTHORISED, some ("Unauthorised (" ++ st ++ ")")⟩ := by
    rcases hcode with h | h <;> subst h <;> simp [makeRequest]
  refine ⟨?_, ?_, ?_⟩
  · simp [Authenticate, hmk]
  · simp [VerifyTotp, hmk]
  · rw [loop_cons_err d (.httpResponse code st br) rest c ("Unauthorised (" ++ st ++ ")")
      (by rw [hmk])]
    rw [hmk]

/-- **C4** witness. -/
theorem c4_unauthorized_retry_scope_witness :
    Authenticate (.ok "{}") (.ok ()) (.httpResponse 401 "401 Unauthorized" ("", none)) testDecode =
      ({ yakStatusCode := YAK_STATUS_UNAUTHORISED },
        some ("Unauthorised (" ++ "401 Unauthorized" ++ ")")) ∧
    VerifyTotp (.ok "{}") (.httpResponse 401 "401 Unauthorized" ("", none)) testDecode =
      ({ yakStatusCode := YAK_STATUS_UNAUTHORISED },
        some ("Unauthorised (" ++ "401 Unauthorized" ++ ")")) ∧
    verifyPushPollLoop testDecode
        (.httpResponse 401 "401 Unauthorized" ("", none) :: [evSuccess]) 6 =
      (if (6 : Int) - 1 = 0 then
        ⟨some ({ yakStatusCode := YAK_STATUS_UNAUTHORISED },
               some ("Unauthorised (" ++ "401 Unauthorized" ++ ")")), 1, 0⟩
      else
        ⟨(verifyPushPollLoop testDecode [evSuccess] (6 - 1)).outcome,
         (verifyPushPollLoop testDecode [evSuccess] (6 - 1)).polls + 1,
         (verifyPushPollLoop testDecode [evSuccess] (6 - 1)).sleepSeconds⟩) :=
  c4_unauthorized_retry_scope "{}" testDecode 401 "401 Unauthorized" ("", none)
    [evSuccess] 6 (Or.inl rfl)

/-- **C4** counterexample to the claim as stated: a poll response classified
as unauthorized (HTTP 401, `YAK_STATUS_UNAUTHORISED`) does NOT terminate
polling — the loop retries and, the next poll answering `SUCCESS`, returns
success after 2 polls. -/
theorem c4_counterexample_unauthorized_poll_retried :
    (makeRequest evUnauthorised).yakStatus = YAK_STATUS_UNAUTHORISED ∧
    verifyPushPollLoop testDecode [evUnauthorised, evSuccess] 6 =
      ⟨some (authFromEvent testDecode evSuccess, none), 2, 0⟩ := by
  constructor
  · rfl
  · rfl

/-- **C5**: the shared transport helper classifies every POST outcome:
transport error → network-failure with empty body; HTTP 401/403 →
unauthorized; any other status ≥ 300 → network-failure; a body-read failure
→ bad-response (with the partial bytes); otherwise the raw body bytes with
status ok and no error. -/
theorem c5_transport_classification
    (msg : String) (code : Nat) (st : String) (bodyBytes : String) (readErr : Option String) :
    makeRequest (.connError msg) = ⟨"", YAK_STATUS_NET_ERROR, some msg⟩ ∧
    (code = 401 ∨ code = 403 →
      makeRequest (.httpResponse code st (bodyBytes, readErr)) =
        ⟨"", YAK_STATUS_UNAUTHORISED, some ("Unauthorised (" ++ st ++ ")")⟩) ∧
    (code ≠ 401 → code ≠ 403 → 300 ≤ code →
      makeRequest (.httpResponse code st (bodyBytes, readErr)) =
        ⟨"", YAK_STATUS_NET_ERROR, some ("Network error (" ++ st ++ ")")⟩) ∧
    (code < 300 → ∀ e, readErr = some e →
      makeRequest (.httpResponse code st (bodyBytes, readErr)) =
        ⟨bodyBytes, YAK_STATUS_BAD_RESPONSE, some e⟩) ∧
    (code < 300 → readErr = none →
      makeRequest (.httpResponse code st (bodyBytes, readErr)) =
        ⟨bodyBytes, YAK_STATUS_OK, none⟩) := by
  refine ⟨rfl, ?_, ?_, ?_, ?_⟩
  · intro h
    simp [makeRequest, h]
  · intro h1 h2 h3
    simp [makeRequest, h1, h2, h3]
  · intro h e hre
    subst hre
    have hne : ¬(code = 401 ∨ code = 403) := by omega
    have hge : ¬(300 ≤ code) := by omega
    simp [makeRequest, hne, hge]
  · intro h hre
    subst hre
    have hne : ¬(code = 401 ∨ code = 403) := by omega
    have hge : ¬(300 ≤ code) := by omega
    simp [makeRequest, hne, hge]

/-- **C5** witness. -/
theorem c5_transport_classification_witness :
    makeRequest (.httpResponse 404 "404 Not Found" ("oops", none)) =
      ⟨"", YAK_STATUS_NET_ERROR, some ("Network error (" ++ "404 Not Found" ++ ")")⟩ :=
  (c5_transport_classification "x" 404 "404 Not Found" "oops" none).2.2.1
    (by decide) (by decide) (by decide)

/-- **C6** (amended): whenever the transport helper succeeds, `Authenticate`
returns a nil error regardless of the body's content, and the result is the
unmarshal of the body over the ok-marked zero record; the result is still
marked ok whenever the body does not set the untagged exported
`YakStatusCode` field, and in particular a non-decodable body yields the
zero-value record still marked ok. (A body that does name `YakStatusCode`
overrides the ok mark — the error stays nil; see the counterexample.) -/
theorem c6_authenticate_ok_ignores_decode
    (mr : String) (o : TransportOutcome) (d : String → Option OktaAuthFields)
    (h : (makeRequest o).error = none) :
    Authenticate (.ok mr) (.ok ()) o d =
      (applyUnmarshalAuth (d (makeRequest o).body) { yakStatusCode := YAK_STATUS_OK }, none) ∧
    ((∀ f, d (makeRequest o).body = some f → f.yakStatusCode = none) →
      (Authenticate (.ok mr) (.ok ()) o d).1.yakStatusCode = YAK_STATUS_OK) ∧
    (d (makeRequest o).body = none →
      Authenticate (.ok mr) (.ok ()) o d = ({ yakStatusCode := YAK_STATUS_OK }, none)) := by
  have hmain : Authenticate (.ok mr) (.ok ()) o d =
      (applyUnmarshalAuth (d (makeRequest o).body) { yakStatusCode := YAK_STATUS_OK }, none) := by
    simp only [Authenticate, h]
  refine ⟨hmain, ?_, ?_⟩
  · intro hysc
    rw [hmain]
    exact applyUnmarshalAuth_yakStatusCode _ _ hysc
  · intro hd
    rw [hmain, hd]
    rfl

/-- **C6** witness: a 200 response whose body is not decodable JSON. -/
theorem c6_authenticate_ok_ignores_decode_witness :
    Authenticate (.ok "{}") (.ok ()) (.httpResponse 200 "200 OK" ("not json", none)) testDecode =
      ({ yakStatusCode := YAK_STATUS_OK }, none) :=
  (c6_authenticate_ok_ignores_decode "{}" (.httpResponse 200 "200 OK" ("not json", none))
    testDecode (by decide)).2.2 (by decide)

/-- **C6** counterexample to the claim as stated: the transport succeeds
(HTTP 200, `makeRequest` error nil), yet a body that names the untagged
exported `YakStatusCode` field — matched by field name by `encoding/json` —
makes `Authenticate` return a NON-ok status together with a nil error,
falsifying "an AuthSession with StatusCode ok ... regardless of the
response body's content". -/
theorem c6_counterexample_body_sets_status :
    (makeRequest (.httpResponse 200 "200 OK" ("YSC", none))).error = none ∧
    Authenticate (.ok "{}") (.ok ()) (.httpResponse 200 "200 OK" ("YSC", none)) testDecodeYsc =
      ({ status := "SUCCESS", yakStatusCode := YAK_STATUS_NET_ERROR }, none) ∧
    YAK_STATUS_NET_ERROR ≠ YAK_STATUS_OK := by
  refine ⟨rfl, rfl, by decide⟩

/-- **C9** (implicit, amended): `makeRequest` returns `YAK_STATUS_OK` iff
its error is nil, unconditionally. For `Authenticate`, `VerifyTotp` and
(whenever it terminates) `VerifyPush`, a non-nil error always comes with a
non-ok status; the converse — nil error implies status ok — holds whenever
the response body does not set the untagged exported `YakStatusCode` field,
which `encoding/json` matches by field name (so under such an oracle the
full iff holds for all four operations; see the counterexample for a body
that breaks it). -/
theorem c9_status_ok_iff_no_error
    (o : TransportOutcome)
    (mr : Except String String) (ur : Except String Unit)
    (d : String → Option OktaAuthFields)
    (io : TransportOutcome) (dp : String → Option PushRequestResponse)
    (pb : List TransportOutcome) :
    ((makeRequest o).yakStatus = YAK_STATUS_OK ↔ (makeRequest o).error = none) ∧
    ((Authenticate mr ur o d).2 ≠ none →
      (Authenticate mr ur o d).1.yakStatusCode ≠ YAK_STATUS_OK) ∧
    ((VerifyTotp mr o d).2 ≠ none → (VerifyTotp mr o d).1.yakStatusCode ≠ YAK_STATUS_OK) ∧
    (∀ resp err, (VerifyPush mr io dp d pb).outcome = some (resp, err) → err ≠ none →
      resp.yakStatusCode ≠ YAK_STATUS_OK) ∧
    ((∀ b f, d b = some f → f.yakStatusCode = none) →
      ((Authenticate mr ur o d).1.yakStatusCode = YAK_STATUS_OK ↔
        (Authenticate mr ur o d).2 = none) ∧
      ((VerifyTotp mr o d).1.yakStatusCode = YAK_STATUS_OK ↔ (VerifyTotp mr o d).2 = none) ∧
      (∀ resp err, (VerifyPush mr io dp d pb).outcome = some (resp, err) →
        (resp.yakStatusCode = YAK_STATUS_OK ↔ err = none))) := by
  refine ⟨makeRequest_status_ok_iff o, ?_, ?_, ?_, ?_⟩
  · cases mr with
    | error e => simp [Authenticate, YAK_STATUS_DATA_ERROR, YAK_STATUS_OK]
    | ok m =>
      cases ur with
      | error e => simp [Authenticate, YAK_STATUS_DATA_ERROR, YAK_STATUS_OK]
      | ok u =>
        rcases he : (makeRequest o).error with _ | e
        · simp [Authenticate, he]
        · have hne : (makeRequest o).yakStatus ≠ YAK_STATUS_OK := by
            simp only [ne_eq, makeRequest_status_ok_iff, he]
            simp
          simp [Authenticate, he, hne]
  · cases mr with
    | error e => simp [VerifyTotp, YAK_STATUS_DATA_ERROR, YAK_STATUS_OK]
    | ok m =>
      rcases he : (makeRequest o).error with _ | e
      · simp [VerifyTotp, he]
      · have hne : (makeRequest o).yakStatus ≠ YAK_STATUS_OK := by
          simp only [ne_eq, makeRequest_status_ok_iff, he]
          simp
        simp [VerifyTotp, he, hne]
  · intro resp err h hne
    cases mr with
    | error e =>
      simp only [VerifyPush, Option.some.injEq, Prod.mk.injEq] at h
      rw [← h.1]
      simp [YAK_STATUS_DATA_ERROR, YAK_STATUS_OK]
    | ok m =>
      rcases he : (makeRequest io).error with _ | e
      · simp only [VerifyPush, he] at h
        exact loop_err_nonok d pb 6 resp err h hne
      · simp only [VerifyPush, he, Option.some.injEq, Prod.mk.injEq] at h
        rw [← h.1]
        have hio : (makeRequest io).yakStatus ≠ YAK_STATUS_OK := by
          simp only [ne_eq, makeRequest_status_ok_iff, he]
          simp
        simp [hio]
  · intro hysc
    refine ⟨?_, ?_, ?_⟩
    · cases mr with
      | error e => simp [Authenticate, YAK_STATUS_DATA_ERROR, YAK_STATUS_OK]
      | ok m =>
        cases ur with
        | error e => simp [Authenticate, YAK_STATUS_DATA_ERROR, YAK_STATUS_OK]
        | ok u =>
          rcases he : (makeRequest o).error with _ | e
          · have hy := applyUnmarshalAuth_yakStatusCode (d (makeRequest o).body)
              { yakStatusCode := YAK_STATUS_OK } (fun f hf => hysc _ f hf)
            simp [Authenticate, he, hy]
          · have hne : (makeRequest o).yakStatus ≠ YAK_STATUS_OK := by
              simp only [ne_eq, makeRequest_status_ok_iff, he]
              simp
            simp [Authenticate, he, hne]
    · cases mr with
      | error e => simp [VerifyTotp, YAK_STATUS_DATA_ERROR, YAK_STATUS_OK]
      | ok m =>
        rcases he : (makeRequest o).error with _ | e
        · have hy := applyUnmarshalAuth_yakStatusCode (d (makeRequest o).body)
            { yakStatusCode := YAK_STATUS_OK } (fun f hf => hysc _ f hf)
          simp [VerifyTotp, he, hy]
        · have hne : (makeRequest o).yakStatus ≠ YAK_STATUS_OK := by
            simp only [ne_eq, makeRequest_status_ok_iff, he]
            simp
          simp [VerifyTotp, he, hne]
    · intro resp err h
      cases mr with
      | error e =>
        simp only [VerifyPush, Option.some.injEq, Prod.mk.injEq] at h
        rw [← h.1, ← h.2]
        simp [YAK_STATUS_DATA_ERROR, YAK_STATUS_OK]
      | ok m =>
        rcases he : (makeRequest io).error with _ | e
        · simp only [VerifyPush, he] at h
          exact loop_status_iff d hysc pb 6 resp err h
        · simp only [VerifyPush, he, Option.some.injEq, Prod.mk.injEq] at h
          rw [← h.1, ← h.2]
          have hio : (makeRequest io).yakStatus ≠ YAK_STATUS_OK := by
            simp only [ne_eq, makeRequest_status_ok_iff, he]
            simp
          simp [hio]

/-- **C9** witness. -/
theorem c9_status_ok_iff_no_error_witness :
    ((makeRequest evSuccess).yakStatus = YAK_STATUS_OK ↔ (makeRequest evSuccess).error = none) ∧
    ((Authenticate (.ok "{}") (.ok ()) evSuccess testDecode).1.yakStatusCode = YAK_STATUS_OK ↔
      (Authenticate (.ok "{}") (.ok ()) evSuccess testDecode).2 = none) :=
  have hc9 := c9_status_ok_iff_no_error evSuccess (.ok "{}") (.ok ()) testDecode evChallenge
    (fun _ => none) [evSuccess]
  ⟨hc9.1, (hc9.2.2.2.2 testDecode_no_ysc).1⟩

/-- **C9** counterexample to the claim as stated: `VerifyTotp` on a 2xx
response whose body names the untagged exported `YakStatusCode` field
returns a non-ok status together with a nil error, so "StatusCode ok iff
error nil" fails for the program. -/
theorem c9_counterexample_body_sets_status :
    (VerifyTotp (.ok "{}") (.httpResponse 200 "200 OK" ("YSC", none))
      testDecodeYsc).1.yakStatusCode = YAK_STATUS_NET_ERROR ∧
    (VerifyTotp (.ok "{}") (.httpResponse 200 "200 OK" ("YSC", none)) testDecodeYsc).2 = none ∧
    YAK_STATUS_NET_ERROR ≠ YAK_STATUS_OK := by
  refine ⟨rfl, rfl, by decide⟩

/-! ## HTML extraction helpers and claims C7, C10 -/

/-- A token `extractSamlPayload` accepts as the SAML input: a start or
self-closing `input` tag whose (last) `name` attribute is `SAMLResponse`. -/
def isSamlInput (t : HtmlToken) : Prop :=
  (t.ttype = HtmlTokenType.selfClosingTagToken ∨ t.ttype = HtmlTokenType.startTagToken) ∧
    t.data = "input" ∧ lastAttrVal "name" t.attr = "SAMLResponse"

instance instDecidableIsSamlInput (t : HtmlToken) : Decidable (isSamlInput t) := by
  unfold isSamlInput
  infer_instance

theorem extract_found (t : HtmlToken) (rest : List HtmlToken) (ht : isSamlInput t) :
    extractSamlPayload (t :: rest) = .ok (lastAttrVal "value" t.attr) := by
  obtain ⟨h1, h2, h3⟩ := ht
  have hno : t.ttype ≠ HtmlTokenType.errorToken := by
    rcases h1 with h | h <;> rw [h] <;> simp
  simp only [extractSamlPayload]
  rw [if_neg hno, if_pos ⟨h1, h2⟩, if_pos h3]

theorem extract_skip (pre rest : List HtmlToken)
    (h : ∀ u ∈ pre, u.ttype ≠ HtmlTokenType.errorToken ∧ ¬ isSamlInput u) :
    extractSamlPayload (pre ++ rest) = extractSamlPayload rest := by
  induction pre with
  | nil => rfl
  | cons u us ih =>
    have hu := h u (by simp)
    rw [List.cons_append]
    simp only [extractSamlPayload]
    rw [if_neg hu.1]
    by_cases hPQ : (u.ttype = HtmlTokenType.selfClosingTagToken ∨
        u.ttype = HtmlTokenType.startTagToken) ∧ u.data = "input"
    · rw [if_pos hPQ]
      have hname : lastAttrVal "name" u.attr ≠ "SAMLResponse" := by
        intro hx
        exact hu.2 ⟨hPQ.1, hPQ.2, hx⟩
      rw [if_neg hname]
      exact ih (fun v hv => h v (List.mem_cons_of_mem u hv))
    · rw [if_neg hPQ]
      exact ih (fun v hv => h v (List.mem_cons_of_mem u hv))

theorem extract_error_head (dt : String) (attrs : List HtmlAttribute) (tail : List HtmlToken) :
    extractSamlPayload (⟨HtmlTokenType.errorToken, dt, attrs⟩ :: tail) =
      .error "No SAML payload found in response from Okta" := by
  simp [extractSamlPayload]

/-- The `<input type="hidden" name="SAMLResponse" value="QUJD">` token. -/
def samlInputToken : HtmlToken :=
  ⟨HtmlTokenType.startTagToken, "input",
    [⟨"type", "hidden"⟩, ⟨"name", "SAMLResponse"⟩, ⟨"value", "QUJD"⟩]⟩

/-- The same input tag with no `value` attribute at all. -/
def samlInputNoValueToken : HtmlToken :=
  ⟨HtmlTokenType.startTagToken, "input", [⟨"type", "hidden"⟩, ⟨"name", "SAMLResponse"⟩]⟩

/-- The EOF token a tokenizer produces at the end of a document. -/
def eofToken : HtmlToken :=
  ⟨HtmlTokenType.errorToken, "", []⟩

/-- **C7**: the extractor returns the `value` attribute of the first start
or self-closing `input` tag whose `name` attribute is `SAMLResponse`,
stopping there (the result does not depend on the tokens after the match);
if the error/EOF token is reached before such an input, it fails with the
no-payload error; concretely `<input type="hidden" name="SAMLResponse"
value="QUJD">` yields `"QUJD"`, which base64-decodes to the bytes of
`"ABC"`. -/
theorem c7_extract_first_saml_input
    (pre : List HtmlToken) (t : HtmlToken) (rest : List HtmlToken)
    (hpre : ∀ u ∈ pre, u.ttype ≠ HtmlTokenType.errorToken ∧ ¬ isSamlInput u)
    (ht : isSamlInput t) :
    extractSamlPayload (pre ++ t :: rest) = .ok (lastAttrVal "value" t.attr) ∧
    (∀ pre2 : List HtmlToken,
      (∀ u ∈ pre2, u.ttype ≠ HtmlTokenType.errorToken ∧ ¬ isSamlInput u) →
      ∀ dt attrs tail,
        extractSamlPayload (pre2 ++ ⟨HtmlTokenType.errorToken, dt, attrs⟩ :: tail) =
          .error "No SAML payload found in response from Okta") ∧
    extractSamlPayload [samlInputToken, eofToken] = .ok "QUJD" ∧
    base64StdDecode "QUJD".data = some (strBytes "ABC") := by
  refine ⟨?_, ?_, by rfl, by rfl⟩
  · rw [extract_skip pre (t :: rest) hpre]
    exact extract_found t rest ht
  · intro pre2 h2 dt attrs tail
    rw [extract_skip pre2 _ h2]
    exact extract_error_head dt attrs tail

/-- **C7** witness. -/
theorem c7_extract_first_saml_input_witness :
    extractSamlPayload ([] ++ samlInputToken :: [eofToken]) =
      .ok (lastAttrVal "value" samlInputToken.attr) :=
  (c7_extract_first_saml_input [] samlInputToken [eofToken]
    (by simp) (by decide)).1

/-- **C10** (implicit): if the first matching `SAMLResponse` input has no
`value` attribute (or an empty one), extraction succeeds with the empty
string, the base64 decode of the empty string succeeds, and the assertion
exchange returns an empty payload with no error. -/
theorem c10_empty_value_empty_payload
    (base ref : GoUrl) (tok : GoStr) (code : Nat) (st : String)
    (pre : List HtmlToken) (t : HtmlToken) (rest : List HtmlToken)
    (hcode : code < 300)
    (hpre : ∀ u ∈ pre, u.ttype ≠ HtmlTokenType.errorToken ∧ ¬ isSamlInput u)
    (ht : isSamlInput t)
    (hval : lastAttrVal "value" t.attr = "") :
    extractSamlPayload (pre ++ t :: rest) = .ok "" ∧
    AwsSamlLogin (.ok base) (.ok ref) tok (.httpResponse code st (.ok (pre ++ t :: rest))) =
      .ok [] := by
  have hex : extractSamlPayload (pre ++ t :: rest) = .ok "" := by
    rw [extract_skip pre (t :: rest) hpre, extract_found t rest ht, hval]
  refine ⟨hex, ?_⟩
  simp only [AwsSamlLogin]
  rw [if_neg (by omega : ¬ 300 ≤ code)]
  rw [hex]
  rfl

/-- **C10** witness. -/
theorem c10_empty_value_empty_payload_witness :
    extractSamlPayload ([] ++ samlInputNoValueToken :: [eofToken]) = .ok "" ∧
    AwsSamlLogin (.ok {}) (.ok {}) (strBytes "tok")
        (.httpResponse 200 "200 OK" (.ok ([] ++ samlInputNoValueToken :: [eofToken]))) =
      .ok [] :=
  c10_empty_value_empty_payload {} {} (strBytes "tok") 200 "200 OK"
    [] samlInputNoValueToken [eofToken] (by decide) (by simp) (by decide) (by decide)

/-! ## Query-codec lemmas and claim C8 -/

theorem hexDigit_spec : ∀ n < 16, isHexDigitByte (upperHexDigit n) = true ∧
    hexDigitVal (upperHexDigit n) = n := by decide

set_option maxRecDepth 4000 in
theorem escByte_mem_spec : ∀ b < 256, ∀ x ∈ queryEscapeByte b, x ≠ 38 ∧ x ≠ 61 := by decide

theorem queryUnescape_escByte (b : Nat) (hb : b < 256) (rest : GoStr) :
    queryUnescape (queryEscapeByte b ++ rest) = (queryUnescape rest).map (fun t => b :: t) := by
  by_cases hu : isUnreservedQueryByte b
  · have hb43 : b ≠ 43 := by
      intro h
      subst h
      simp [isUnreservedQueryByte] at hu
    have hb37 : b ≠ 37 := by
      intro h
      subst h
      simp [isUnreservedQueryByte] at hu
    rcases rest with _ | ⟨x, _ | ⟨y, rest2⟩⟩ <;>
      simp [queryEscapeByte, hu, queryUnescape, hb43, hb37]
  · by_cases hsp : b = 32
    · subst hsp
      rcases rest with _ | ⟨x, _ | ⟨y, rest2⟩⟩ <;>
        simp [queryEscapeByte, hu, queryUnescape]
    · have h1 : b / 16 < 16 := by omega
      have h2 : b % 16 < 16 := by omega
      have hh := hexDigit_spec (b / 16) h1
      have hl := hexDigit_spec (b % 16) h2
      have hb16 : b / 16 * 16 + b % 16 = b := by omega
      simp [queryEscapeByte, hu, hsp, queryUnescape, hh.1, hh.2, hl.1, hl.2, hb16]

theorem queryUnescape_escape (s : GoStr) (h : ∀ b ∈ s, b < 256) :
    queryUnescape (queryEscape s) = some s := by
  induction s with
  | nil => rfl
  | cons b bs ih =>
    simp only [queryEscape]
    rw [queryUnescape_escByte b (h b (by simp)) (queryEscape bs),
      ih (fun x hx => h x (List.mem_cons_of_mem b hx))]
    rfl

theorem escape_no_sep (s : GoStr) (h : ∀ b ∈ s, b < 256) :
    ∀ x ∈ queryEscape s, x ≠ 38 ∧ x ≠ 61 := by
  induction s with
  | nil => simp [queryEscape]
  | cons b bs ih =>
    intro x hx
    simp only [queryEscape, List.mem_append] at hx
    rcases hx with hx | hx
    · exact escByte_mem_spec b (h b (by simp)) x hx
    · exact ih (fun y hy => h y (List.mem_cons_of_mem b hy)) x hx

theorem splitOnAmpersand_no_amp (s : GoStr) (h : ∀ b ∈ s, b ≠ 38) :
    splitOnAmpersand s = [s] := by
  induction s with
  | nil => rfl
  | cons b bs ih =>
    simp only [splitOnAmpersand]
    rw [if_neg (h b (by simp)), ih (fun y hy => h y (List.mem_cons_of_mem b hy))]

theorem splitFirstEq_append (k v : GoStr) (h : ∀ b ∈ k, b ≠ 61) :
    splitFirstEq (k ++ 61 :: v) = (k, v) := by
  induction k with
  | nil => simp [splitFirstEq]
  | cons b bs ih =>
    simp only [List.cons_append, splitFirstEq, List.append_eq]
    rw [if_neg (h b (by simp)), ih (fun y hy => h y (List.mem_cons_of_mem b hy))]

theorem onetimetoken_bytes_facts :
    (∀ b ∈ strBytes "onetimetoken", b < 256 ∧ b ≠ 38 ∧ b ≠ 61) ∧
    queryEscape (strBytes "onetimetoken") = strBytes "onetimetoken" ∧
    queryUnescape (strBytes "onetimetoken") = some (strBytes "onetimetoken") := by
  decide

/-- **C8**: the GET URL built by the assertion exchanger is the SAML path
resolved against the base address (scheme, host, path), and its query
parses to exactly one parameter, `onetimetoken`, whose value is the session
token. -/
theorem c8_saml_url_single_query_param
    (base ref : GoUrl) (token : GoStr) (htoken : ∀ b ∈ token, b < 256) :
    (awsSamlLoginUrl base ref token).scheme = (resolveReference base ref).scheme ∧
    (awsSamlLoginUrl base ref token).host = (resolveReference base ref).host ∧
    (awsSamlLoginUrl base ref token).path = (resolveReference base ref).path ∧
    goParseQuery (awsSamlLoginUrl base ref token).rawQuery =
      some [(strBytes "onetimetoken", token)] := by
  refine ⟨rfl, rfl, rfl, ?_⟩
  have hq : (awsSamlLoginUrl base ref token).rawQuery =
      strBytes "onetimetoken" ++ 61 :: queryEscape token := by
    show urlValuesEncodeSingle (strBytes "onetimetoken") token =
      strBytes "onetimetoken" ++ 61 :: queryEscape token
    rw [urlValuesEncodeSingle, onetimetoken_bytes_facts.2.1]
  rw [hq]
  have hno38 : ∀ b ∈ strBytes "onetimetoken" ++ 61 :: queryEscape token, b ≠ 38 := by
    intro b hb
    simp only [List.mem_append, List.mem_cons] at hb
    rcases hb with hb | hb | hb
    · exact (onetimetoken_bytes_facts.1 b hb).2.1
    · subst hb
      decide
    · exact (escape_no_sep token htoken b hb).1
  have hne : (strBytes "onetimetoken" ++ 61 :: queryEscape token).isEmpty = false := by
    rfl
  simp only [goParseQuery]
  rw [splitOnAmpersand_no_amp _ hno38]
  simp only [List.filter, hne, Bool.not_false]
  simp only [parseSegments,
    splitFirstEq_append (strBytes "onetimetoken") (queryEscape token)
      (fun b hb => (onetimetoken_bytes_facts.1 b hb).2.2),
    onetimetoken_bytes_facts.2.2,
    queryUnescape_escape token htoken]

/-- **C8** witness. -/
theorem c8_saml_url_single_query_param_witness :
    goParseQuery (awsSamlLoginUrl {} { path := strBytes "/home/amazon_aws/0oa/272" }
        (strBytes "abc 1/2=3&x")).rawQuery =
      some [(strBytes "onetimetoken", strBytes "abc 1/2=3&x")] :=
  (c8_saml_url_single_query_param {} { path := strBytes "/home/amazon_aws/0oa/272" }
    (strBytes "abc 1/2=3&x") (by decide)).2.2.2

end Yak

